import Mathlib

/-!
Verification development for the daily giveaway bot
(`src/models.py`, `src/giveaway_manager.py`, `src/storage.py`).

Shallow embedding conventions:
* Absolute instants (Python `datetime`, UTC or local) are integers counting
  seconds; `DAY = 86400` seconds.  Local calendar dates are the integer
  quotient by `DAY`, so `now_local.date()` becomes `now_local / DAY` and the
  ISO date string used as a schedule marker is represented by that day number
  (the ISO encoding of a date is injective, so nothing is lost).
* Python `time` objects (time-of-day) used by recurring giveaways are the
  structure `TimeOfDay` with hour/minute/second/microsecond, matching
  `datetime.time`.  Config schedule times-of-day are seconds-of-day numbers.
* A timezone is modelled as a fixed UTC offset in seconds; `astimezone(UTC)`
  subtracts the offset.
* `secrets.SystemRandom().sample(population, k)` is an opaque function
  parameter `sample`; `SampleSpec` records exactly the guarantees of
  `random.sample` (k results, drawn from the population, pairwise distinct
  positions, hence distinct values on a duplicate-free population).
* All manager operations work on one guild: `self.state.get_giveaway(gid, i)`
  becomes `find_giveaway gs i` on that guild state.  Exceptions become
  `Except`; functions that mutate `self.state` in place return the new
  `GuildState` next to the `Except` result so that the raise-before-mutation
  behaviour is visible (the returned state equals the input on every error
  path, exactly as in the Python code where the `raise` precedes any write).
* Discord I/O (channel fetch, message send) is represented by booleans
  (`channel_found`, `send_ok`) and by the freshly produced `message_id`.
-/

/-- One day in seconds (`timedelta(days=1)`). -/
def DAY : Nat := 86400

/-- `models.Giveaway` (an active or finished giveaway). -/
structure Giveaway where
  id : String
  guild_id : Int
  channel_id : Int
  message_id : Int
  winners : Int
  title : String
  description : String
  end_time : Int
  created_at : Int
  participants : List Int
  scheduled_id : Option String
  is_active : Bool
  last_announced_winners : List Int
deriving DecidableEq

/-- `models.PendingGiveaway` (scheduled but not yet started). -/
structure PendingGiveaway where
  id : String
  guild_id : Int
  channel_id : Int
  winners : Int
  title : String
  description : String
  start_time : Int
  end_time : Int
deriving DecidableEq

/-- `models.RecentWinner` (cooldown ledger entry). -/
structure RecentWinner where
  user_id : Int
  giveaway_id : String
  won_at : Int
deriving DecidableEq

/-- Python `datetime.time`: hour, minute, second, microsecond. -/
structure TimeOfDay where
  hour : Nat
  minute : Nat
  second : Nat
  microsecond : Nat
deriving DecidableEq

/-- `models.RecurringGiveaway` (user-created daily template). -/
structure RecurringGiveaway where
  id : String
  guild_id : Int
  channel_id : Int
  winners : Int
  title : String
  description : String
  start_time : TimeOfDay
  end_time : TimeOfDay
  next_start : Int
  next_end : Int
  enabled : Bool
deriving DecidableEq

/-- `models.GuildState` (the per-workspace aggregate).  `schedule_runs` maps a
config schedule id to the local calendar day (day number standing for the ISO
date string) on which it last fired. -/
structure GuildState where
  auto_enabled : Bool
  timezone : String
  logger_channel_id : Option Int
  schedule_runs : List (String × Nat)
  giveaways : List Giveaway
  pending_giveaways : List PendingGiveaway
  recurring_giveaways : List RecurringGiveaway
  admin_roles : List Int
  recent_winner_cooldown_enabled : Bool
  recent_winner_cooldown_days : Int
  recent_winners : List RecentWinner
deriving DecidableEq

/-- `config.ScheduledGiveawayConfig`: one static daily-schedule entry.  The
two times are seconds-of-day. -/
structure ScheduledGiveawayConfig where
  id : String
  enabled : Bool
  channel_id : Int
  winners : Int
  title : String
  description : String
  start_time : Nat
  end_time : Nat
deriving DecidableEq

/-- The properties `random.sample(population, k)` guarantees for `k ≤ len`:
`k` results, each drawn from the population, and pairwise-distinct values
whenever the population is duplicate-free. -/
def SampleSpec (sample : List Int → Nat → List Int) : Prop :=
  ∀ (pop : List Int) (k : Nat), k ≤ pop.length →
    (sample pop k).length = k ∧
    (∀ x ∈ sample pop k, x ∈ pop) ∧
    (pop.Nodup → (sample pop k).Nodup)

/-- A concrete function satisfying `SampleSpec`, used to instantiate
witnesses: take the first `k` elements. -/
def take_sample (pop : List Int) (k : Nat) : List Int :=
  pop.take k

/-- `GiveawayManager._choose_winners` (src/giveaway_manager.py:847-879), with
the cooldown blocklist (fetched there from `_get_recent_winner_blocklist`)
passed as an argument and the random draw as the `sample` parameter.  In the
source, when the blocklist filter empties the pool the code logs and still
assigns the (empty) filtered list, so both branches of the inner `if` assign
`filtered`. -/
def choose_winners (sample : List Int → Nat → List Int) (g : Giveaway)
    (reroll : Bool) (blocklist : List Int) : List Int :=
  if g.participants.length = 0 then []
  else
    let winners_count : Int := min g.winners (g.participants.length : Int)
    let population := g.participants
    let population :=
      if reroll && !g.last_announced_winners.isEmpty then
        let filtered := population.filter
          (fun p => !g.last_announced_winners.contains p)
        if filtered.isEmpty then population else filtered
      else population
    let population :=
      if !blocklist.isEmpty then
        population.filter (fun p => !blocklist.contains p)
      else population
    let winners_count :=
      if winners_count > (population.length : Int) then (population.length : Int)
      else winners_count
    if winners_count = 0 then []
    else sample population winners_count.toNat

/-- `GiveawayManager._get_recent_winner_blocklist`
(src/giveaway_manager.py:146-181): prunes ledger entries older than the
retention window, collects the user ids of entries inside the cooldown
window, and clears the blocklist when the cooldown is disabled.  Returns the
blocklist together with the updated guild state. -/
def get_recent_winner_blocklist (gs : GuildState) (now : Int) :
    List Int × GuildState :=
  let cooldown_days := max gs.recent_winner_cooldown_days 0
  let cooldown_enabled := gs.recent_winner_cooldown_enabled
  let retention_days := max cooldown_days 30
  let retention_cutoff := now - retention_days * (DAY : Int)
  let cooldown_cutoff := now - cooldown_days * (DAY : Int)
  let retained := gs.recent_winners.filter
    (fun e => retention_cutoff ≤ e.won_at)
  let blocked :=
    if cooldown_enabled && cooldown_days > 0 then
      (retained.filter (fun e => cooldown_cutoff ≤ e.won_at)).map
        (fun e => e.user_id)
    else []
  (blocked, { gs with recent_winners := retained })

/-- `GiveawayManager._record_recent_winners`
(src/giveaway_manager.py:183-214): when the winner list is non-empty, prune
the ledger by the retention window and append one entry per winner stamped
with the current instant. -/
def record_recent_winners (gs : GuildState) (winners : List Int)
    (giveaway_id : String) (now : Int) : GuildState :=
  if winners.isEmpty then gs
  else
    let retention_days := max gs.recent_winner_cooldown_days 30
    let retention_cutoff := now - retention_days * (DAY : Int)
    let retained := gs.recent_winners.filter
      (fun e => retention_cutoff ≤ e.won_at)
    { gs with recent_winners :=
        retained ++ winners.map (fun w => RecentWinner.mk w giveaway_id now) }

/-- `BotState.upsert_giveaway` restricted to one guild
(src/models.py:320-327): replace the first entry with the same id, else
append. -/
def upsert_list : List Giveaway → Giveaway → List Giveaway
  | [], g => [g]
  | x :: t, g => if x.id = g.id then g :: t else x :: upsert_list t g

/-- Upsert a giveaway inside a guild state. -/
def upsert_giveaway (gs : GuildState) (g : Giveaway) : GuildState :=
  { gs with giveaways := upsert_list gs.giveaways g }

/-- `BotState.get_giveaway` restricted to one guild (src/models.py:339-347):
first entry with the requested id. -/
def find_giveaway (gs : GuildState) (giveaway_id : String) : Option Giveaway :=
  gs.giveaways.find? (fun g => g.id == giveaway_id)

/-- Replace-or-append on pending giveaways (`BotState.upsert_pending`,
src/models.py:373-380). -/
def upsert_pending_list : List PendingGiveaway → PendingGiveaway → List PendingGiveaway
  | [], p => [p]
  | x :: t, p => if x.id = p.id then p :: t else x :: upsert_pending_list t p

/-- Upsert a pending giveaway inside a guild state. -/
def upsert_pending (gs : GuildState) (p : PendingGiveaway) : GuildState :=
  { gs with pending_giveaways := upsert_pending_list gs.pending_giveaways p }

/-- `GiveawayManager._finalize_giveaway` (src/giveaway_manager.py:484-526).
If the channel is unreachable the function returns before drawing (the
giveaway keeps its fields).  Otherwise it draws winners, stores them in
`last_announced_winners`, clears the participant list unless winners were
drawn and `notify` is set, and records the winners in the cooldown ledger.
The third component reports whether the winner draw ran. -/
def finalize_giveaway (gs : GuildState) (g : Giveaway)
    (channel_found notify : Bool) (sample : List Int → Nat → List Int)
    (now : Int) : GuildState × Giveaway × Bool :=
  if !channel_found then (upsert_giveaway gs g, g, false)
  else
    let bl := get_recent_winner_blocklist gs now
    let winners := choose_winners sample g false bl.1
    let g1 := { g with last_announced_winners := winners }
    let g2 :=
      if !winners.isEmpty && notify then g1
      else { g1 with participants := [] }
    let gs2 := record_recent_winners bl.2 winners g.id now
    (upsert_giveaway gs2 g2, g2, true)

/-- `GiveawayManager.end_giveaway` (src/giveaway_manager.py:465-482): not
found → `none`; already finished → the existing record unchanged with no
draw; otherwise flip `is_active` to false, persist and finalize.  The third
component reports whether the winner draw ran. -/
def end_giveaway (gs : GuildState) (giveaway_id : String)
    (channel_found notify : Bool) (sample : List Int → Nat → List Int)
    (now : Int) : GuildState × Option Giveaway × Bool :=
  match find_giveaway gs giveaway_id with
  | none => (gs, none, false)
  | some g =>
    if !g.is_active then (gs, some g, false)
    else
      let g0 := { g with is_active := false }
      let gs0 := upsert_giveaway gs g0
      let r := finalize_giveaway gs0 g0 channel_found notify sample now
      (r.1, some r.2.1, r.2.2)

/-- `GiveawayManager.reroll` (src/giveaway_manager.py:701-732): unknown id →
`none`; an active giveaway raises `RuntimeError` before any mutation;
otherwise draw with `is_reroll=True`, record the winners in the ledger, and
overwrite `last_announced_winners`. -/
def reroll (gs : GuildState) (giveaway_id : String)
    (sample : List Int → Nat → List Int) (now : Int) :
    GuildState × Except String (Option (List Int)) :=
  match find_giveaway gs giveaway_id with
  | none => (gs, .ok none)
  | some g =>
    if g.is_active then (gs, .error ("Cannot reroll an active giveaway."))
    else
      let bl := get_recent_winner_blocklist gs now
      let winners := choose_winners sample g true bl.1
      let gs2 := record_recent_winners bl.2 winners g.id now
      match find_giveaway gs2 giveaway_id with
      | none => (gs2, .ok none)
      | some g2 =>
        (upsert_giveaway gs2 { g2 with last_announced_winners := winners },
         .ok (some winners))

/-- `GiveawayManager.start_giveaway` (src/giveaway_manager.py:407-463):
reject non-positive winner counts before any mutation, post the message
(`send_ok`; a failed send raises before any state write), then persist the
new active giveaway. -/
def start_giveaway (gs : GuildState) (guild_id channel_id : Int)
    (winners : Int) (title description : String) (end_time now : Int)
    (scheduled_id : Option String) (new_id : String) (message_id : Int)
    (send_ok : Bool) : GuildState × Except String Giveaway :=
  if winners ≤ 0 then (gs, .error ("winners must be greater than zero"))
  else if !send_ok then (gs, .error ("failed to send giveaway message"))
  else
    let g : Giveaway :=
      { id := new_id, guild_id := guild_id, channel_id := channel_id,
        message_id := message_id, winners := winners, title := title,
        description := description, end_time := end_time, created_at := now,
        participants := [], scheduled_id := scheduled_id, is_active := true,
        last_announced_winners := [] }
    (upsert_giveaway gs g, .ok g)

/-- `GiveawayManager.schedule_manual_giveaway`
(src/giveaway_manager.py:309-348): reject non-positive winner counts, then
reject `end_time <= start_time`, both before any mutation; otherwise persist
the pending giveaway. -/
def schedule_manual_giveaway (gs : GuildState) (guild_id channel_id : Int)
    (winners : Int) (title description : String) (start_time end_time : Int)
    (new_id : String) : GuildState × Except String PendingGiveaway :=
  if winners ≤ 0 then (gs, .error ("winners must be greater than zero"))
  else if end_time ≤ start_time then
    (gs, .error ("end_time must be after start_time"))
  else
    let p : PendingGiveaway :=
      { id := new_id, guild_id := guild_id, channel_id := channel_id,
        winners := winners, title := title, description := description,
        start_time := start_time, end_time := end_time }
    (upsert_pending gs p, .ok p)

/-- Python dict assignment `schedule_runs[schedule.id] = today_iso`: replace
the value of an existing key, else append the pair. -/
def set_schedule_run : List (String × Nat) → String → Nat → List (String × Nat)
  | [], k, v => [(k, v)]
  | (k0, v0) :: t, k, v =>
    if k0 = k then (k, v) :: t else (k0, v0) :: set_schedule_run t k v

/-- The inputs one sweep iteration consumes: the current local instant, the
fresh giveaway id, the id of the posted message, and whether posting the
giveaway message succeeds. -/
structure SweepStep where
  now_local : Nat
  new_id : String
  message_id : Int
  send_ok : Bool
deriving DecidableEq

/-- `GiveawayManager._maybe_start_schedule` (src/giveaway_manager.py:788-836)
for one guild: skip when the recorded last-run day equals today, when the
current local time is before the start of the window, or when an active
giveaway tagged with this schedule id exists; otherwise call
`start_giveaway` (which validates the winner count and posts the message —
on an exception there the run date is not recorded and the state is
untouched) and record today against the schedule id.  The flag reports
whether a giveaway was started. -/
def maybe_start_schedule (sched : ScheduledGiveawayConfig) (guild_id : Int)
    (gs : GuildState) (step : SweepStep) : GuildState × Bool :=
  let today := step.now_local / DAY
  if gs.schedule_runs.lookup sched.id = some today then (gs, false)
  else
    let start_dt := today * DAY + sched.start_time
    let end_dt0 := today * DAY + sched.end_time
    let end_dt := if end_dt0 ≤ start_dt then end_dt0 + DAY else end_dt0
    if step.now_local < start_dt then (gs, false)
    else if gs.giveaways.any
        (fun g => g.scheduled_id == some sched.id && g.is_active) then
      (gs, false)
    else
      match start_giveaway gs guild_id sched.channel_id sched.winners
          sched.title sched.description (end_dt : Int) (step.now_local : Int)
          (some sched.id) step.new_id step.message_id step.send_ok with
      | (_, .error _) => (gs, false)
      | (gs1, .ok _) =>
        ({ gs1 with schedule_runs :=
            set_schedule_run gs1.schedule_runs sched.id today }, true)

/-- Repeated sweep runs of one schedule: thread the guild state through the
steps and count how many runs started a giveaway. -/
def sweep_fires (sched : ScheduledGiveawayConfig) (guild_id : Int) :
    GuildState → List SweepStep → GuildState × Nat
  | gs, [] => (gs, 0)
  | gs, s :: t =>
    let r := maybe_start_schedule sched guild_id gs s
    let rest := sweep_fires sched guild_id r.1 t
    (rest.1, (if r.2 then 1 else 0) + rest.2)

/-- `GiveawayManager._compute_next_window` (src/giveaway_manager.py:907-925)
in local time: combine the reference date with the start time-of-day,
advancing one day when the result is not after the reference; combine the
start date with the end time-of-day, advancing one day when the result is
not after the start. -/
def compute_next_window (ref_local : Nat) (start_tod end_tod : Nat) :
    Nat × Nat :=
  let start0 := (ref_local / DAY) * DAY + start_tod
  let start_local := if start0 ≤ ref_local then start0 + DAY else start0
  let end0 := (start_local / DAY) * DAY + end_tod
  let end_local := if end0 ≤ start_local then end0 + DAY else end0
  (start_local, end_local)

/-- `astimezone(UTC)` for a fixed-offset zone: subtract the offset. -/
def to_utc (local_instant : Nat) (offset : Int) : Int :=
  (local_instant : Int) - offset

/-- `_compute_next_window` including the final conversion of both instants to
UTC. -/
def compute_next_window_utc (ref_local : Nat) (start_tod end_tod : Nat)
    (offset : Int) : Int × Int :=
  let w := compute_next_window ref_local start_tod end_tod
  (to_utc w.1 offset, to_utc w.2 offset)

/-- The two flags of a Discord permission object that `is_admin` inspects. -/
structure Permissions where
  administrator : Bool
  manage_guild : Bool
deriving DecidableEq

/-- `GiveawayManager.is_admin` (src/giveaway_manager.py:216-307) after the
duck-typed attribute plumbing has resolved the owner id, the permission
object and the member role-id set: owner → true; administrator or
manage-guild permission → true; otherwise membership in the guild admin-role
set, falling back to the globally configured admin roles when the guild has
none, denying when both are empty.  The owner test
(src/giveaway_manager.py:224-233) checks a resolved owner id against the
member id. -/
def owner_matches (member_id : Int) (guild_owner_id : Option Int) : Bool :=
  match guild_owner_id with
  | some o => o == member_id
  | none => false

/-- The permission test of `is_admin` (src/giveaway_manager.py:248-255): a
resolved permission object granting `administrator` or `manage_guild`. -/
def has_admin_permission (base_permissions : Option Permissions) : Bool :=
  match base_permissions with
  | some p => p.administrator || p.manage_guild
  | none => false

/-- The role-membership decision of `is_admin`
(src/giveaway_manager.py:280-307). -/
def is_admin (member_id : Int) (guild_owner_id : Option Int)
    (base_permissions : Option Permissions) (role_ids : List Int)
    (guild_admin_roles : List Int) (config_admin_roles : List Int) : Bool :=
  if owner_matches member_id guild_owner_id then true
  else if has_admin_permission base_permissions then true
  else
    let admin_roles :=
      if guild_admin_roles.isEmpty then config_admin_roles
      else guild_admin_roles
    if admin_roles.isEmpty then false
    else admin_roles.any (fun r => role_ids.contains r)

/-- The condition under which `GiveawayManager.audit_overdue`
(src/giveaway_manager.py:1018-1043) selects a finished giveaway for
re-finalization: overdue, inactive, no announced winners, and a non-empty
participant list. -/
def audit_needs_finalize (g : Giveaway) (now : Int) : Bool :=
  (g.end_time ≤ now) && !g.is_active && g.last_announced_winners.isEmpty &&
    !g.participants.isEmpty

/-- A row of the `giveaways` table (src/storage.py:133-169): the entity
without its guild id (the guild id is encoded in the database file name);
instants are stored as ISO strings and participant lists as JSON arrays,
both lossless, so the row keeps the decoded values. -/
structure GiveawayRow where
  id : String
  channel_id : Int
  message_id : Int
  winners : Int
  title : String
  description : String
  end_time : Int
  created_at : Int
  participants : List Int
  scheduled_id : Option String
  is_active : Bool
  last_announced_winners : List Int
deriving DecidableEq

/-- A row of the `pending_giveaways` table (src/storage.py:171-197). -/
structure PendingRow where
  id : String
  channel_id : Int
  winners : Int
  title : String
  description : String
  start_time : Int
  end_time : Int
deriving DecidableEq

/-- A row of the `recurring_giveaways` table (src/storage.py:199-231): the
times-of-day are written with `strftime("%H:%M")`, so only hour and minute
reach the database. -/
structure RecurringRow where
  id : String
  channel_id : Int
  winners : Int
  title : String
  description : String
  start_hour : Nat
  start_minute : Nat
  end_hour : Nat
  end_minute : Nat
  next_start : Int
  next_end : Int
  enabled : Bool
deriving DecidableEq

/-- The contents of one `guild_<id>.sqlite` database after
`StateStorage._write_guild_db`: the `metadata` key/value table flattened into
its five fields, and one list per table in insertion (rowid) order.
`admin_roles` uses `role_id INTEGER PRIMARY KEY`, so the stored list is a
duplicate-free set read back in ascending order; `recent_winners` rows keep
the `RecentWinner` fields unchanged. -/
structure GuildDb where
  auto_enabled : Bool
  timezone : String
  logger_channel_id : Option Int
  recent_winner_cooldown_enabled : Bool
  recent_winner_cooldown_days : Int
  schedule_runs : List (String × Nat)
  admin_roles : List Int
  giveaways : List GiveawayRow
  pending_giveaways : List PendingRow
  recurring_giveaways : List RecurringRow
  recent_winners : List RecentWinner
deriving DecidableEq

/-- Encode one giveaway as its table row (drops `guild_id`). -/
def giveaway_to_row (g : Giveaway) : GiveawayRow :=
  { id := g.id, channel_id := g.channel_id, message_id := g.message_id,
    winners := g.winners, title := g.title, description := g.description,
    end_time := g.end_time, created_at := g.created_at,
    participants := g.participants, scheduled_id := g.scheduled_id,
    is_active := g.is_active,
    last_announced_winners := g.last_announced_winners }

/-- Decode one giveaway row, stamping the guild id taken from the database
file name (src/storage.py:275-293). -/
def giveaway_of_row (r : GiveawayRow) (guild_id : Int) : Giveaway :=
  { id := r.id, guild_id := guild_id, channel_id := r.channel_id,
    message_id := r.message_id, winners := r.winners, title := r.title,
    description := r.description, end_time := r.end_time,
    created_at := r.created_at, participants := r.participants,
    scheduled_id := r.scheduled_id, is_active := r.is_active,
    last_announced_winners := r.last_announced_winners }

/-- Encode one pending giveaway as its table row. -/
def pending_to_row (p : PendingGiveaway) : PendingRow :=
  { id := p.id, channel_id := p.channel_id, winners := p.winners,
    title := p.title, description := p.description,
    start_time := p.start_time, end_time := p.end_time }

/-- Decode one pending row (src/storage.py:295-306). -/
def pending_of_row (r : PendingRow) (guild_id : Int) : PendingGiveaway :=
  { id := r.id, guild_id := guild_id, channel_id := r.channel_id,
    winners := r.winners, title := r.title, description := r.description,
    start_time := r.start_time, end_time := r.end_time }

/-- Encode one recurring schedule as its table row: `strftime("%H:%M")`
keeps only hour and minute of each time-of-day. -/
def recurring_to_row (r : RecurringGiveaway) : RecurringRow :=
  { id := r.id, channel_id := r.channel_id, winners := r.winners,
    title := r.title, description := r.description,
    start_hour := r.start_time.hour, start_minute := r.start_time.minute,
    end_hour := r.end_time.hour, end_minute := r.end_time.minute,
    next_start := r.next_start, next_end := r.next_end,
    enabled := r.enabled }

/-- Decode one recurring row (src/storage.py:308-324):
`strptime(value, "%H:%M").time()` yields second 0 and microsecond 0. -/
def recurring_of_row (r : RecurringRow) (guild_id : Int) : RecurringGiveaway :=
  { id := r.id, guild_id := guild_id, channel_id := r.channel_id,
    winners := r.winners, title := r.title, description := r.description,
    start_time := ⟨r.start_hour, r.start_minute, 0, 0⟩,
    end_time := ⟨r.end_hour, r.end_minute, 0, 0⟩,
    next_start := r.next_start, next_end := r.next_end,
    enabled := r.enabled }

/-- Insert into a list sorted in non-decreasing key order, before the first
element with a key not smaller than the new key. -/
def insert_by_key (key : α → Int) (a : α) : List α → List α
  | [] => [a]
  | b :: t => if key a ≤ key b then a :: b :: t else b :: insert_by_key key a t

/-- Stable sort by an integer key: models an SQL `ORDER BY` over that key
(SQLite scans the `won_at` index in key order with the rowid as tiebreak, so
equal keys come back in insertion order, which a stable sort reproduces).
Likewise an `INTEGER PRIMARY KEY` table is scanned in ascending key order. -/
def sort_by_key (key : α → Int) (l : List α) : List α :=
  l.foldr (insert_by_key key) []

/-- `StateStorage._write_guild_db` (src/storage.py:98-251): one transaction
that clears every table and re-inserts the state.  A duplicate primary key
(`admin_roles.role_id`, any of the id columns, or a `schedule_runs` key)
raises `IntegrityError`, the transaction rolls back and the exception
propagates, so the write fails as a whole. -/
def write_guild_db (gs : GuildState) : Except String GuildDb :=
  if ¬ (gs.schedule_runs.map (fun e => e.1)).Nodup then
    .error ("UNIQUE constraint failed: schedule_runs.schedule_id")
  else if ¬ gs.admin_roles.Nodup then
    .error ("UNIQUE constraint failed: admin_roles.role_id")
  else if ¬ (gs.giveaways.map (fun g => g.id)).Nodup then
    .error ("UNIQUE constraint failed: giveaways.id")
  else if ¬ (gs.pending_giveaways.map (fun p => p.id)).Nodup then
    .error ("UNIQUE constraint failed: pending_giveaways.id")
  else if ¬ (gs.recurring_giveaways.map (fun r => r.id)).Nodup then
    .error ("UNIQUE constraint failed: recurring_giveaways.id")
  else
    .ok { auto_enabled := gs.auto_enabled, timezone := gs.timezone,
          logger_channel_id := gs.logger_channel_id,
          recent_winner_cooldown_enabled := gs.recent_winner_cooldown_enabled,
          recent_winner_cooldown_days := gs.recent_winner_cooldown_days,
          schedule_runs := gs.schedule_runs,
          admin_roles := gs.admin_roles,
          giveaways := gs.giveaways.map giveaway_to_row,
          pending_giveaways := gs.pending_giveaways.map pending_to_row,
          recurring_giveaways := gs.recurring_giveaways.map recurring_to_row,
          recent_winners := gs.recent_winners }

/-- `StateStorage._read_guild_db` (src/storage.py:253-339): rebuild the
guild state from the tables.  `admin_roles` comes back in ascending role-id
order (INTEGER PRIMARY KEY scan) and `recent_winners` is read with
`ORDER BY won_at`; the other tables are scanned in insertion order. -/
def read_guild_db (db : GuildDb) (guild_id : Int) : GuildState :=
  { auto_enabled := db.auto_enabled, timezone := db.timezone,
    logger_channel_id := db.logger_channel_id,
    schedule_runs := db.schedule_runs,
    giveaways := db.giveaways.map (fun r => giveaway_of_row r guild_id),
    pending_giveaways :=
      db.pending_giveaways.map (fun r => pending_of_row r guild_id),
    recurring_giveaways :=
      db.recurring_giveaways.map (fun r => recurring_of_row r guild_id),
    admin_roles := sort_by_key (fun r => r) db.admin_roles,
    recent_winner_cooldown_enabled := db.recent_winner_cooldown_enabled,
    recent_winner_cooldown_days := db.recent_winner_cooldown_days,
    recent_winners := sort_by_key (fun w => w.won_at) db.recent_winners }

/-- An empty guild state with the model defaults (`models.GuildState`). -/
def base_guild_state : GuildState :=
  { auto_enabled := true, timezone := "Europe/Berlin",
    logger_channel_id := none, schedule_runs := [], giveaways := [],
    pending_giveaways := [], recurring_giveaways := [], admin_roles := [],
    recent_winner_cooldown_enabled := false,
    recent_winner_cooldown_days := 0, recent_winners := [] }

/-- A concrete active giveaway with two participants, used by witnesses. -/
def sample_active_giveaway : Giveaway :=
  { id := "g1", guild_id := 1, channel_id := 10, message_id := 100,
    winners := 1, title := "t", description := "d", end_time := 50,
    created_at := 0, participants := [7, 8], scheduled_id := none,
    is_active := true, last_announced_winners := [] }

/-- A guild state holding just `sample_active_giveaway`. -/
def sample_guild_state : GuildState :=
  { base_guild_state with giveaways := [sample_active_giveaway] }

-- ------------------------------------------------------------------
-- Theorems
-- ------------------------------------------------------------------

/-- The first component of `_compute_next_window`: combined start, advanced
one day when not strictly after the reference. -/
theorem compute_next_window_fst (ref s e : Nat) :
    (compute_next_window ref s e).1 =
      if (ref / DAY) * DAY + s ≤ ref then (ref / DAY) * DAY + s + DAY
      else (ref / DAY) * DAY + s := rfl

/-- The second component of `_compute_next_window`, expressed through the
first. -/
theorem compute_next_window_snd (ref s e : Nat) :
    (compute_next_window ref s e).2 =
      if ((compute_next_window ref s e).1 / DAY) * DAY + e ≤
          (compute_next_window ref s e).1 then
        ((compute_next_window ref s e).1 / DAY) * DAY + e + DAY
      else ((compute_next_window ref s e).1 / DAY) * DAY + e := rfl

/-- The next start is strictly after the reference. -/
theorem ref_lt_next_start (ref s e : Nat) :
    ref < (compute_next_window ref s e).1 := by
  rw [compute_next_window_fst]
  simp only [DAY]
  split <;> omega

/-- The next end is strictly after the next start. -/
theorem next_start_lt_next_end (ref s e : Nat) :
    (compute_next_window ref s e).1 < (compute_next_window ref s e).2 := by
  rw [compute_next_window_snd]
  generalize (compute_next_window ref s e).1 = st
  simp only [DAY]
  split <;> omega

/-- Claim C3: for every timezone offset, start/end times-of-day and reference
instant, `_compute_next_window` returns a next start strictly after the
reference, advancing one day exactly when the combined start is not after the
reference, and a next end strictly after the next start; both orderings
survive the conversion to UTC.  Concretely (day 0 = 2024-01-01 local, offset
+01:00): start 22:00 (79200 s), end 06:00 (21600 s), reference 2024-01-01
23:00 (82800 s) yield 2024-01-02 22:00 (165600 s) and 2024-01-03 06:00
(194400 s) local, i.e. 162000 s and 190800 s in UTC. -/
theorem C3_compute_next_window_spec :
    (∀ ref s e : Nat, ref < (compute_next_window ref s e).1) ∧
    (∀ ref s e : Nat,
      (compute_next_window ref s e).1 < (compute_next_window ref s e).2) ∧
    (∀ ref s e : Nat, (compute_next_window ref s e).1 =
      if (ref / DAY) * DAY + s ≤ ref then (ref / DAY) * DAY + s + DAY
      else (ref / DAY) * DAY + s) ∧
    (∀ (ref s e : Nat) (off : Int),
      to_utc ref off < (compute_next_window_utc ref s e off).1 ∧
      (compute_next_window_utc ref s e off).1 <
        (compute_next_window_utc ref s e off).2) ∧
    compute_next_window 82800 79200 21600 = (165600, 194400) ∧
    compute_next_window_utc 82800 79200 21600 3600 = (162000, 190800) := by
  refine ⟨ref_lt_next_start, next_start_lt_next_end,
    compute_next_window_fst, ?_, by decide, by decide⟩
  intro ref s e off
  constructor
  · exact sub_lt_sub_right (by exact_mod_cast ref_lt_next_start ref s e) off
  · exact sub_lt_sub_right
      (by exact_mod_cast next_start_lt_next_end ref s e) off

/-- `take_sample` satisfies the `random.sample` contract. -/
theorem take_sample_spec : SampleSpec take_sample := by
  intro pop k hk
  refine ⟨?_, ?_, ?_⟩
  · simp only [take_sample, List.length_take]
    omega
  · intro x hx
    exact (List.take_sublist k pop).mem hx
  · intro hnd
    exact List.Nodup.sublist (List.take_sublist k pop) hnd
/-- With `reroll = False` and an empty blocklist, `_choose_winners` reduces
to one draw of `min(winners, N)` from the full participant list. -/
theorem choose_winners_no_exclusion (sample : List Int → Nat → List Int)
    (g : Giveaway) (hp : g.participants.length ≠ 0) (hW : 1 ≤ g.winners) :
    choose_winners sample g false [] =
      sample g.participants
        (min g.winners (g.participants.length : Int)).toNat := by
  unfold choose_winners
  rw [if_neg hp]
  have hN : (1 : Int) ≤ (g.participants.length : Int) := by
    have := Nat.one_le_iff_ne_zero.mpr hp
    exact_mod_cast this
  simp only [Bool.false_and, Bool.not_true, List.isEmpty_nil,
    Bool.false_eq_true, if_false]
  rw [if_neg (not_lt.mpr (min_le_right _ _)), if_neg (by omega)]

/-- Claim C4: with winners `W ≥ 1`, no reroll exclusion and an empty cooldown
blocklist, `_choose_winners` returns exactly `min(W, N)` distinct actor ids,
all from the participant list, and the empty sequence when `N = 0`.  The
participant list is duplicate-free (`Giveaway.add_participant` enforces it)
and the draw is any function satisfying the `random.sample` contract. -/
theorem C4_choose_winners_spec (sample : List Int → Nat → List Int)
    (hs : SampleSpec sample) (g : Giveaway) (hW : 1 ≤ g.winners)
    (hnd : g.participants.Nodup) :
    (choose_winners sample g false []).length =
      min g.winners.toNat g.participants.length ∧
    (choose_winners sample g false []).Nodup ∧
    (∀ x ∈ choose_winners sample g false [], x ∈ g.participants) ∧
    (g.participants = [] → choose_winners sample g false [] = []) := by
  by_cases hp : g.participants.length = 0
  · have hnil : g.participants = [] := List.length_eq_zero.mp hp
    have hres : choose_winners sample g false [] = [] := by
      unfold choose_winners
      rw [if_pos hp]
    rw [hres]
    simp [hnil]
  · have hk : (min g.winners (g.participants.length : Int)).toNat ≤
        g.participants.length := by omega
    obtain ⟨hlen, hmem, hnodup⟩ := hs g.participants _ hk
    rw [choose_winners_no_exclusion sample g hp hW]
    refine ⟨?_, hnodup hnd, hmem, ?_⟩
    · rw [hlen]
      omega
    · intro h
      rw [h] at hp
      simp at hp

/-- Witness for C4: the concrete giveaway with two participants and one
requested winner, drawn with the concrete sampler. -/
theorem C4_choose_winners_spec_witness :
    SampleSpec take_sample ∧ 1 ≤ sample_active_giveaway.winners ∧
    sample_active_giveaway.participants.Nodup ∧
    ((choose_winners take_sample sample_active_giveaway false []).length =
      min sample_active_giveaway.winners.toNat
        sample_active_giveaway.participants.length ∧
    (choose_winners take_sample sample_active_giveaway false []).Nodup ∧
    (∀ x ∈ choose_winners take_sample sample_active_giveaway false [],
      x ∈ sample_active_giveaway.participants) ∧
    (sample_active_giveaway.participants = [] →
      choose_winners take_sample sample_active_giveaway false [] = [])) :=
  ⟨take_sample_spec, by decide, by decide,
    C4_choose_winners_spec take_sample take_sample_spec
      sample_active_giveaway (by decide) (by decide)⟩

/-- A duplicate-free list whose elements all equal `u` and which contains `u`
is exactly `[u]`. -/
theorem eq_singleton_of_forall_eq (l : List Int) (u : Int) (hnd : l.Nodup)
    (hmem : u ∈ l) (hall : ∀ x ∈ l, x = u) : l = [u] := by
  cases l with
  | nil => simp at hmem
  | cons a t =>
    have ha : a = u := hall a (List.mem_cons_self a t)
    subst ha
    have ht : t = [] := by
      cases t with
      | nil => rfl
      | cons b t2 =>
        have hb : b = a := hall b (List.mem_cons_of_mem a (List.mem_cons_self b t2))
        have hmem2 : a ∈ b :: t2 := by
          rw [hb]
          exact List.mem_cons_self a t2
        exact absurd hmem2 (List.nodup_cons.mp hnd).1
    rw [ht]

/-- Any function with the `random.sample` contract, asked for one element of
a singleton population, returns that singleton. -/
theorem sample_singleton (sample : List Int → Nat → List Int)
    (hs : SampleSpec sample) (u : Int) : sample [u] 1 = [u] := by
  obtain ⟨hlen, hmem, -⟩ := hs [u] 1 (by simp)
  cases h : sample [u] 1 with
  | nil =>
    rw [h] at hlen
    simp at hlen
  | cons a t =>
    rw [h] at hlen hmem
    have ha : a = u := by simpa using hmem a (by simp)
    have ht : t = [] := by
      have : t.length = 0 := by simpa using hlen
      exact List.length_eq_zero.mp this
    rw [ha, ht]

/-- When the pool left after the reroll-exclusion stage followed by the
cooldown filter is the singleton `[u]`, `_choose_winners` with
`is_reroll=True` returns `[u]`. -/
theorem choose_winners_reroll_singleton (sample : List Int → Nat → List Int)
    (hs : SampleSpec sample) (g : Giveaway) (blocklist : List Int) (u : Int)
    (hp : g.participants.length ≠ 0) (hW : 1 ≤ g.winners)
    (hble : blocklist.isEmpty = false)
    (hpool : (if g.last_announced_winners.isEmpty then g.participants
        else if (g.participants.filter
            (fun p => !g.last_announced_winners.contains p)).isEmpty then
          g.participants
        else g.participants.filter
          (fun p => !g.last_announced_winners.contains p)).filter
        (fun p => !blocklist.contains p) = [u]) :
    choose_winners sample g true blocklist = [u] := by
  have hwc : (1 : Int) ≤ min g.winners (g.participants.length : Int) := by
    refine le_min hW ?_
    exact_mod_cast Nat.one_le_iff_ne_zero.mpr hp
  unfold choose_winners
  rw [if_neg hp]
  simp only [Bool.true_and, hble, Bool.not_false, if_true]
  by_cases hLE : g.last_announced_winners.isEmpty = true
  · rw [if_pos hLE] at hpool
    simp only [hLE, Bool.not_true, Bool.false_eq_true, if_false]
    rw [hpool]
    simp only [List.length_cons, List.length_nil, Nat.cast_one, Nat.cast_zero,
      zero_add]
    split_ifs with h1 h2 h3 <;> try omega
    · simp only [Int.toNat_one]
      exact sample_singleton sample hs u
    · have : (min g.winners (g.participants.length : Int)).toNat = 1 := by
        omega
      rw [this]
      exact sample_singleton sample hs u
  · have hLE' : g.last_announced_winners.isEmpty = false := by
      cases h : g.last_announced_winners.isEmpty
      · rfl
      · exact absurd h hLE
    rw [hLE'] at hpool
    simp only [Bool.false_eq_true, if_false] at hpool
    simp only [hLE', Bool.not_false, if_true]
    rw [hpool]
    simp only [List.length_cons, List.length_nil, Nat.cast_one, Nat.cast_zero,
      zero_add]
    split_ifs with h1 h2 h3 <;> try omega
    · simp only [Int.toNat_one]
      exact sample_singleton sample hs u
    · have : (min g.winners (g.participants.length : Int)).toNat = 1 := by
        omega
      rw [this]
      exact sample_singleton sample hs u

/-- The concrete C5 configuration in which the single unblocked participant
is itself a previous winner: participants 1..5, previous winners [1, 2],
blocklist {2, 3, 4, 5}. -/
def reroll_cex_giveaway : Giveaway :=
  { id := "g5", guild_id := 1, channel_id := 10, message_id := 100,
    winners := 1, title := "t", description := "d", end_time := 50,
    created_at := 0, participants := [1, 2, 3, 4, 5], scheduled_id := none,
    is_active := false, last_announced_winners := [1, 2] }

/-- The same configuration with previous winners [2, 3], so the unblocked
participant 1 is not a previous winner. -/
def reroll_witness_giveaway : Giveaway :=
  { reroll_cex_giveaway with last_announced_winners := [2, 3] }

/-- Counterexample to claim C5 as stated: five participants, a previous
winner list of two of them, and a blocklist covering four of the five — yet
the draw returns no winner, because the single unblocked participant (actor
1) is itself a previous winner: the reroll-exclusion stage removes it, and
the cooldown filter empties what remains, so the code prefers zero winners.
The empty pool short-circuits before sampling, so the concrete sampler is
immaterial. -/
theorem C5_reroll_cooldown_counterexample :
    reroll_cex_giveaway.participants.length = 5 ∧
    reroll_cex_giveaway.last_announced_winners.length = 2 ∧
    (∀ x ∈ reroll_cex_giveaway.last_announced_winners,
      x ∈ reroll_cex_giveaway.participants) ∧
    (1 : Int) ∈ reroll_cex_giveaway.participants ∧
    (1 : Int) ∉ ([2, 3, 4, 5] : List Int) ∧
    (∀ x ∈ reroll_cex_giveaway.participants, x ≠ 1 →
      x ∈ ([2, 3, 4, 5] : List Int)) ∧
    choose_winners take_sample reroll_cex_giveaway true [2, 3, 4, 5] = [] := by
  decide

/-- Claim C5 (amended): for a giveaway with five duplicate-free participants,
any previous-winner list and a cooldown blocklist leaving exactly one
participant `u` unblocked, a reroll draw returns exactly `[u]` — provided
`u` is not itself a previous winner.  (When `u` is a previous winner the
reroll-exclusion stage removes it first and the cooldown stage then empties
the pool, so the draw returns no winners; see the counterexample.) -/
theorem C5_reroll_cooldown_amended (sample : List Int → Nat → List Int)
    (hs : SampleSpec sample) (g : Giveaway) (u : Int) (blocklist : List Int)
    (hlen : g.participants.length = 5) (hnd : g.participants.Nodup)
    (hW : 1 ≤ g.winners) (hmem : u ∈ g.participants) (hub : u ∉ blocklist)
    (hcover : ∀ x ∈ g.participants, x ≠ u → x ∈ blocklist)
    (hprev : u ∉ g.last_announced_winners) :
    choose_winners sample g true blocklist = [u] := by
  have hp : g.participants.length ≠ 0 := by
    rw [hlen]
    omega
  have hbl : blocklist ≠ [] := by
    rcases hP : g.participants with _ | ⟨a, _ | ⟨b, t⟩⟩
    · rw [hP] at hlen
      simp at hlen
    · rw [hP] at hlen
      simp at hlen
    · have hab : a ≠ b := by
        rw [hP] at hnd
        intro h
        exact (List.nodup_cons.mp hnd).1 (by rw [h]; exact List.mem_cons_self b t)
      intro hblnil
      by_cases hau : a = u
      · have hbu : b ≠ u := fun h => hab (hau.trans h.symm)
        have : b ∈ blocklist := hcover b (by rw [hP]; simp) hbu
        rw [hblnil] at this
        simp at this
      · have : a ∈ blocklist := hcover a (by rw [hP]; simp) hau
        rw [hblnil] at this
        simp at this
  have hble : blocklist.isEmpty = false := by
    cases blocklist with
    | nil => exact absurd rfl hbl
    | cons x t => rfl
  apply choose_winners_reroll_singleton sample hs g blocklist u hp hW hble
  by_cases hLE : g.last_announced_winners.isEmpty = true
  · rw [if_pos hLE]
    apply eq_singleton_of_forall_eq
    · exact hnd.filter _
    · exact List.mem_filter.mpr ⟨hmem, by simp [hub]⟩
    · intro x hx
      obtain ⟨hxP, hxb⟩ := List.mem_filter.mp hx
      by_contra hxu
      have : x ∈ blocklist := hcover x hxP hxu
      simp [this] at hxb
  · have hLE' : g.last_announced_winners.isEmpty = false := by
      cases h : g.last_announced_winners.isEmpty
      · rfl
      · exact absurd h hLE
    rw [hLE']
    simp only [Bool.false_eq_true, if_false]
    have hufilt : u ∈ g.participants.filter
        (fun p => !g.last_announced_winners.contains p) :=
      List.mem_filter.mpr ⟨hmem, by simp [hprev]⟩
    have hfe : (g.participants.filter
        (fun p => !g.last_announced_winners.contains p)).isEmpty = false := by
      cases h : g.participants.filter
          (fun p => !g.last_announced_winners.contains p) with
      | nil =>
        rw [h] at hufilt
        simp at hufilt
      | cons x t => rfl
    rw [hfe]
    simp only [Bool.false_eq_true, if_false]
    apply eq_singleton_of_forall_eq
    · exact (hnd.filter _).filter _
    · exact List.mem_filter.mpr ⟨hufilt, by simp [hub]⟩
    · intro x hx
      obtain ⟨hx1, hxb⟩ := List.mem_filter.mp hx
      obtain ⟨hxP, -⟩ := List.mem_filter.mp hx1
      by_contra hxu
      have : x ∈ blocklist := hcover x hxP hxu
      simp [this] at hxb

/-- Witness for the amended C5 at concrete inputs: previous winners [2, 3],
blocklist {2, 3, 4, 5}, unblocked participant 1 (not a previous winner). -/
theorem C5_reroll_cooldown_amended_witness :
    (reroll_witness_giveaway.participants.length = 5 ∧
     reroll_witness_giveaway.participants.Nodup ∧
     1 ≤ reroll_witness_giveaway.winners ∧
     (1 : Int) ∈ reroll_witness_giveaway.participants ∧
     (1 : Int) ∉ ([2, 3, 4, 5] : List Int) ∧
     (∀ x ∈ reroll_witness_giveaway.participants, x ≠ 1 →
       x ∈ ([2, 3, 4, 5] : List Int)) ∧
     (1 : Int) ∉ reroll_witness_giveaway.last_announced_winners) ∧
    choose_winners take_sample reroll_witness_giveaway true [2, 3, 4, 5] =
      [1] :=
  ⟨by decide,
    C5_reroll_cooldown_amended take_sample take_sample_spec
      reroll_witness_giveaway 1 [2, 3, 4, 5] (by decide) (by decide)
      (by decide) (by decide) (by decide) (by decide) (by decide)⟩

/-- After an upsert, looking up the upserted id finds exactly the upserted
record (the replaced slot was the first match, and everything before it has
a different id). -/
theorem find?_upsert_list (l : List Giveaway) (g : Giveaway) :
    (upsert_list l g).find? (fun x => x.id == g.id) = some g := by
  induction l with
  | nil => simp [upsert_list, List.find?]
  | cons x t ih =>
    unfold upsert_list
    by_cases h : x.id = g.id
    · rw [if_pos h]
      simp [List.find?]
    · rw [if_neg h]
      rw [List.find?_cons_of_neg]
      · exact ih
      · simp [h]

/-- `find_giveaway` after `upsert_giveaway` of a matching id. -/
theorem find_giveaway_upsert (gs : GuildState) (g : Giveaway) (i : String)
    (h : g.id = i) : find_giveaway (upsert_giveaway gs g) i = some g := by
  unfold find_giveaway upsert_giveaway
  rw [← h]
  exact find?_upsert_list gs.giveaways g

/-- A found giveaway carries the id it was looked up by. -/
theorem find_giveaway_id (gs : GuildState) (i : String) (g : Giveaway)
    (h : find_giveaway gs i = some g) : g.id = i := by
  have := List.find?_some h
  simpa using this

/-- Unfolding `_finalize_giveaway` when the channel is reachable. -/
theorem finalize_giveaway_found (gs : GuildState) (g : Giveaway)
    (notify : Bool) (sample : List Int → Nat → List Int) (now : Int) :
    finalize_giveaway gs g true notify sample now =
      (let bl := get_recent_winner_blocklist gs now
       let winners := choose_winners sample g false bl.1
       let g1 := { g with last_announced_winners := winners }
       let g2 := if !winners.isEmpty && notify then g1
                 else { g1 with participants := [] }
       (upsert_giveaway (record_recent_winners bl.2 winners g.id now) g2,
        g2, true)) := rfl

/-- With a reachable channel the finalization step performs the draw. -/
theorem finalize_giveaway_drew (gs : GuildState) (g : Giveaway)
    (notify : Bool) (sample : List Int → Nat → List Int) (now : Int) :
    (finalize_giveaway gs g true notify sample now).2.2 = true := by
  rw [finalize_giveaway_found]

/-- Finalization never changes the `is_active` flag. -/
theorem finalize_giveaway_is_active (gs : GuildState) (g : Giveaway)
    (notify : Bool) (sample : List Int → Nat → List Int) (now : Int) :
    (finalize_giveaway gs g true notify sample now).2.1.is_active =
      g.is_active := by
  rw [finalize_giveaway_found]
  dsimp only
  split <;> rfl

/-- After finalization, looking the giveaway up again yields exactly the
finalized record. -/
theorem finalize_giveaway_find (gs : GuildState) (g : Giveaway)
    (notify : Bool) (sample : List Int → Nat → List Int) (now : Int)
    (i : String) (hid : g.id = i) :
    find_giveaway (finalize_giveaway gs g true notify sample now).1 i =
      some (finalize_giveaway gs g true notify sample now).2.1 := by
  rw [finalize_giveaway_found]
  dsimp only
  apply find_giveaway_upsert
  split <;> exact hid

/-- Claim C1: ending a giveaway is idempotent.  With the giveaway active and
its channel reachable, the first `end_giveaway` call performs the winner
draw; a second call on the same id is a no-op that performs no draw, returns
the very record the first call produced (now with `is_active = false`), and
leaves the state untouched.  The second call may run at any later instant,
with any sampler and any notify flag. -/
theorem C1_end_giveaway_idempotent (gs : GuildState) (i : String)
    (g : Giveaway) (notify notify2 : Bool)
    (sample sample2 : List Int → Nat → List Int) (now now2 : Int)
    (hfind : find_giveaway gs i = some g) (hact : g.is_active = true) :
    (end_giveaway gs i true notify sample now).2.2 = true ∧
    (end_giveaway (end_giveaway gs i true notify sample now).1 i true notify2
      sample2 now2).2.2 = false ∧
    (end_giveaway (end_giveaway gs i true notify sample now).1 i true notify2
      sample2 now2).2.1 = (end_giveaway gs i true notify sample now).2.1 ∧
    (end_giveaway (end_giveaway gs i true notify sample now).1 i true notify2
      sample2 now2).1 = (end_giveaway gs i true notify sample now).1 ∧
    ∃ gf, (end_giveaway gs i true notify sample now).2.1 = some gf ∧
      gf.is_active = false := by
  have hid : g.id = i := find_giveaway_id gs i g hfind
  have hid0 : ({ g with is_active := false } : Giveaway).id = i := hid
  have e1 : end_giveaway gs i true notify sample now =
      ((finalize_giveaway (upsert_giveaway gs { g with is_active := false })
          { g with is_active := false } true notify sample now).1,
       some (finalize_giveaway
          (upsert_giveaway gs { g with is_active := false })
          { g with is_active := false } true notify sample now).2.1,
       (finalize_giveaway (upsert_giveaway gs { g with is_active := false })
          { g with is_active := false } true notify sample now).2.2) := by
    unfold end_giveaway
    rw [hfind]
    simp only [hact, Bool.not_true, Bool.false_eq_true, if_false]
  have hfa : (finalize_giveaway
      (upsert_giveaway gs { g with is_active := false })
      { g with is_active := false } true notify sample now).2.1.is_active =
      false :=
    finalize_giveaway_is_active _ _ _ _ _
  have hff : find_giveaway (finalize_giveaway
      (upsert_giveaway gs { g with is_active := false })
      { g with is_active := false } true notify sample now).1 i =
      some (finalize_giveaway
      (upsert_giveaway gs { g with is_active := false })
      { g with is_active := false } true notify sample now).2.1 :=
    finalize_giveaway_find _ _ _ _ _ _ hid0
  have e2 : end_giveaway (end_giveaway gs i true notify sample now).1 i true
      notify2 sample2 now2 =
      ((end_giveaway gs i true notify sample now).1,
       some (finalize_giveaway
          (upsert_giveaway gs { g with is_active := false })
          { g with is_active := false } true notify sample now).2.1,
       false) := by
    rw [e1]
    unfold end_giveaway
    rw [hff]
    simp only [hfa, Bool.not_false, if_true]
  refine ⟨?_, ?_, ?_, ?_, ?_⟩
  · rw [e1]
    exact finalize_giveaway_drew
      (upsert_giveaway gs { g with is_active := false })
      { g with is_active := false } notify sample now
  · rw [e2]
  · rw [e2, e1]
  · rw [e2]
  · refine ⟨(finalize_giveaway
        (upsert_giveaway gs { g with is_active := false })
        { g with is_active := false } true notify sample now).2.1, ?_, hfa⟩
    rw [e1]

/-- Witness for C1 at the concrete guild state holding one active giveaway,
ended twice with the concrete sampler. -/
theorem C1_end_giveaway_idempotent_witness :
    (find_giveaway sample_guild_state ("g1") = some sample_active_giveaway ∧
     sample_active_giveaway.is_active = true) ∧
    ((end_giveaway sample_guild_state ("g1") true true take_sample 60).2.2 =
      true ∧
     (end_giveaway
       (end_giveaway sample_guild_state ("g1") true true take_sample 60).1
       ("g1") true true take_sample 61).2.2 = false ∧
     (end_giveaway
       (end_giveaway sample_guild_state ("g1") true true take_sample 60).1
       ("g1") true true take_sample 61).2.1 =
      (end_giveaway sample_guild_state ("g1") true true take_sample 60).2.1 ∧
     (end_giveaway
       (end_giveaway sample_guild_state ("g1") true true take_sample 60).1
       ("g1") true true take_sample 61).1 =
      (end_giveaway sample_guild_state ("g1") true true take_sample 60).1 ∧
     ∃ gf, (end_giveaway sample_guild_state ("g1") true true take_sample
       60).2.1 = some gf ∧ gf.is_active = false) :=
  ⟨⟨by decide, rfl⟩,
    C1_end_giveaway_idempotent sample_guild_state ("g1")
      sample_active_giveaway true true take_sample take_sample 60 61
      (by decide) rfl⟩

/-- The blocklist computation only touches the recent-winner ledger. -/
theorem blocklist_giveaways (gs : GuildState) (now : Int) :
    (get_recent_winner_blocklist gs now).2.giveaways = gs.giveaways := rfl

/-- Recording recent winners only touches the recent-winner ledger. -/
theorem record_giveaways (gs : GuildState) (w : List Int) (i : String)
    (now : Int) :
    (record_recent_winners gs w i now).giveaways = gs.giveaways := by
  unfold record_recent_winners
  split <;> rfl

/-- Claim C7: rerolling an active giveaway is rejected with an error raised
before any mutation, so the whole state — in particular the giveaway's
`is_active`, `end_time`, `participants` and `last_announced_winners` — is
unchanged.  When the giveaway is inactive, the reroll succeeds and the
stored record differs from the original only in `last_announced_winners`,
which now holds the freshly drawn set. -/
theorem C7_reroll_active_rejected (gs : GuildState) (i : String)
    (g : Giveaway) (sample : List Int → Nat → List Int) (now : Int)
    (hfind : find_giveaway gs i = some g) :
    (g.is_active = true →
      reroll gs i sample now =
        (gs, .error ("Cannot reroll an active giveaway."))) ∧
    (g.is_active = false →
      (reroll gs i sample now).2 = .ok (some (choose_winners sample g true
        (get_recent_winner_blocklist gs now).1)) ∧
      find_giveaway (reroll gs i sample now).1 i =
        some { g with last_announced_winners := (choose_winners sample g
          true (get_recent_winner_blocklist gs now).1) }) := by
  have hid : g.id = i := find_giveaway_id gs i g hfind
  constructor
  · intro ha
    unfold reroll
    rw [hfind]
    dsimp only
    rw [if_pos ha]
  · intro hia
    have hg2 : find_giveaway (record_recent_winners
        (get_recent_winner_blocklist gs now).2
        (choose_winners sample g true
          (get_recent_winner_blocklist gs now).1) g.id now) i = some g := by
      unfold find_giveaway
      rw [record_giveaways, blocklist_giveaways]
      exact hfind
    have e : reroll gs i sample now =
        (upsert_giveaway (record_recent_winners
            (get_recent_winner_blocklist gs now).2
            (choose_winners sample g true
              (get_recent_winner_blocklist gs now).1) g.id now)
          { g with last_announced_winners := (choose_winners sample g
            true (get_recent_winner_blocklist gs now).1) },
         .ok (some (choose_winners sample g true
           (get_recent_winner_blocklist gs now).1))) := by
      unfold reroll
      rw [hfind]
      dsimp only
      rw [if_neg (by rw [hia]; simp)]
      rw [hg2]
    rw [e]
    exact ⟨rfl, find_giveaway_upsert _ _ _ hid⟩

/-- Witness for C7 at the concrete guild state whose giveaway `g1` is
active: the reroll is rejected with the error and the state is unchanged. -/
theorem C7_reroll_active_rejected_witness :
    find_giveaway sample_guild_state ("g1") = some sample_active_giveaway ∧
    ((sample_active_giveaway.is_active = true →
      reroll sample_guild_state ("g1") take_sample 0 =
        (sample_guild_state,
         .error ("Cannot reroll an active giveaway."))) ∧
     (sample_active_giveaway.is_active = false →
      (reroll sample_guild_state ("g1") take_sample 0).2 =
        .ok (some (choose_winners take_sample sample_active_giveaway true
          (get_recent_winner_blocklist sample_guild_state 0).1)) ∧
      find_giveaway (reroll sample_guild_state ("g1") take_sample 0).1
        ("g1") =
        some { sample_active_giveaway with
          last_announced_winners := (choose_winners take_sample
            sample_active_giveaway true
            (get_recent_winner_blocklist sample_guild_state 0).1) })) :=
  ⟨by decide,
    C7_reroll_active_rejected sample_guild_state ("g1")
      sample_active_giveaway take_sample 0 (by decide)⟩

/-- Claim C6: with a non-positive requested winner count, both the deferred
creation (`schedule_manual_giveaway`) and the immediate creation
(`start_giveaway`) raise the validation error before any mutation: the
returned state is the input state, so no `PendingGiveaway` and no `Giveaway`
is added or persisted. -/
theorem C6_nonpositive_winners_rejected (gs : GuildState)
    (guild_id channel_id : Int) (winners : Int)
    (title description : String) (start_time end_time now : Int)
    (scheduled_id : Option String) (new_id : String) (message_id : Int)
    (send_ok : Bool) (hw : winners ≤ 0) :
    schedule_manual_giveaway gs guild_id channel_id winners title description
      start_time end_time new_id =
      (gs, .error ("winners must be greater than zero")) ∧
    start_giveaway gs guild_id channel_id winners title description end_time
      now scheduled_id new_id message_id send_ok =
      (gs, .error ("winners must be greater than zero")) ∧
    (schedule_manual_giveaway gs guild_id channel_id winners title
      description start_time end_time new_id).1.pending_giveaways =
      gs.pending_giveaways ∧
    (start_giveaway gs guild_id channel_id winners title description end_time
      now scheduled_id new_id message_id send_ok).1.giveaways =
      gs.giveaways := by
  have e1 : schedule_manual_giveaway gs guild_id channel_id winners title
      description start_time end_time new_id =
      (gs, .error ("winners must be greater than zero")) := by
    unfold schedule_manual_giveaway
    rw [if_pos hw]
  have e2 : start_giveaway gs guild_id channel_id winners title description
      end_time now scheduled_id new_id message_id send_ok =
      (gs, .error ("winners must be greater than zero")) := by
    unfold start_giveaway
    rw [if_pos hw]
  exact ⟨e1, e2, by rw [e1], by rw [e2]⟩

/-- Witness for C6 at winner count 0 on the empty base guild state. -/
theorem C6_nonpositive_winners_rejected_witness :
    (0 : Int) ≤ 0 ∧
    (schedule_manual_giveaway base_guild_state 1 10 0 ("t") ("d") 0 5
      ("p1") = (base_guild_state,
        .error ("winners must be greater than zero")) ∧
    start_giveaway base_guild_state 1 10 0 ("t") ("d") 5 0 none ("p1") 100
      true = (base_guild_state,
        .error ("winners must be greater than zero")) ∧
    (schedule_manual_giveaway base_guild_state 1 10 0 ("t") ("d") 0 5
      ("p1")).1.pending_giveaways = base_guild_state.pending_giveaways ∧
    (start_giveaway base_guild_state 1 10 0 ("t") ("d") 5 0 none ("p1") 100
      true).1.giveaways = base_guild_state.giveaways) :=
  ⟨le_refl 0,
    C6_nonpositive_winners_rejected base_guild_state 1 10 0 ("t") ("d") 0 5 0
      none ("p1") 100 true (le_refl 0)⟩

/-- A resolved owner id different from the member id fails the owner test. -/
theorem owner_matches_false (m : Int) (o : Option Int) (h : o ≠ some m) :
    owner_matches m o = false := by
  cases o with
  | none => rfl
  | some o' =>
    have hne : o' ≠ m := fun hh => h (by rw [hh])
    simp [owner_matches, hne]

/-- A permission object with neither flag set fails the permission test. -/
theorem has_admin_permission_false (perms : Option Permissions)
    (h : ∀ p, perms = some p →
      p.administrator = false ∧ p.manage_guild = false) :
    has_admin_permission perms = false := by
  cases perms with
  | none => rfl
  | some p =>
    obtain ⟨ha, hm⟩ := h p rfl
    simp [has_admin_permission, ha, hm]

/-- The workspace owner is always an admin. -/
theorem is_admin_owner (m : Int) (perms : Option Permissions)
    (roles ga ca : List Int) :
    is_admin m (some m) perms roles ga ca = true := by
  unfold is_admin
  simp [owner_matches]

/-- Administrator or manage-guild permission grants admin. -/
theorem is_admin_perm (m : Int) (o : Option Int) (p : Permissions)
    (roles ga ca : List Int) (hp : (p.administrator || p.manage_guild) = true) :
    is_admin m o (some p) roles ga ca = true := by
  unfold is_admin
  split
  · rfl
  · simp [has_admin_permission, hp]

/-- With neither the owner rule nor the permission rule matching, `is_admin`
is exactly role-intersection with the effective admin-role set (guild roles,
falling back to the configured global roles when the guild has none). -/
theorem is_admin_role_cases (m : Int) (o : Option Int)
    (perms : Option Permissions) (roles ga ca : List Int)
    (ho : o ≠ some m)
    (hperm : ∀ p, perms = some p →
      p.administrator = false ∧ p.manage_guild = false) :
    is_admin m o perms roles ga ca =
      (if ga.isEmpty then ca else ga).any (fun r => roles.contains r) := by
  unfold is_admin
  rw [owner_matches_false m o ho]
  simp only [Bool.false_eq_true, if_false]
  rw [has_admin_permission_false perms hperm]
  simp only [Bool.false_eq_true, if_false]
  by_cases hge : (if ga.isEmpty then ca else ga).isEmpty = true
  · rw [if_pos hge]
    rw [List.isEmpty_iff.mp hge]
    rfl
  · rw [if_neg hge]

/-- Claim C9: the admin check follows first-match-wins precedence — owner
always allowed; otherwise administrator or manage-guild permission allowed;
otherwise allowed exactly when the member holds a role of the effective
admin-role set (guild set, falling back to the global default set when the
guild has none); in particular a member with roles disjoint from a
non-empty effective admin-role set, no elevated permission and not the
owner is always denied. -/
theorem C9_is_admin_precedence :
    (∀ (m : Int) (perms : Option Permissions) (roles ga ca : List Int),
      is_admin m (some m) perms roles ga ca = true) ∧
    (∀ (m : Int) (o : Option Int) (p : Permissions) (roles ga ca : List Int),
      (p.administrator || p.manage_guild) = true →
      is_admin m o (some p) roles ga ca = true) ∧
    (∀ (m : Int) (o : Option Int) (perms : Option Permissions)
       (roles ga ca : List Int),
      o ≠ some m →
      (∀ p, perms = some p →
        p.administrator = false ∧ p.manage_guild = false) →
      is_admin m o perms roles ga ca =
        (if ga.isEmpty then ca else ga).any (fun r => roles.contains r)) ∧
    (∀ (m : Int) (o : Option Int) (perms : Option Permissions)
       (roles ga ca : List Int),
      o ≠ some m →
      (∀ p, perms = some p →
        p.administrator = false ∧ p.manage_guild = false) →
      (if ga.isEmpty then ca else ga) ≠ [] →
      (∀ r ∈ (if ga.isEmpty then ca else ga), r ∉ roles) →
      is_admin m o perms roles ga ca = false) := by
  refine ⟨is_admin_owner, is_admin_perm, is_admin_role_cases, ?_⟩
  intro m o perms roles ga ca ho hperm hne hdisj
  rw [is_admin_role_cases m o perms roles ga ca ho hperm]
  apply List.any_eq_false.mpr
  intro r hr
  simpa using hdisj r hr

/-- Witness for C9: owner always allowed; elevated permission allowed; a
member with only role 1 against the admin-role set {2, 3} denied. -/
theorem C9_is_admin_precedence_witness :
    is_admin 5 (some 5) (some ⟨false, false⟩) [] [2] [] = true ∧
    is_admin 5 (some 9) (some ⟨true, false⟩) [] [2] [] = true ∧
    is_admin 5 (some 9) (some ⟨false, false⟩) [1] [2, 3] [] = false :=
  ⟨C9_is_admin_precedence.1 5 (some ⟨false, false⟩) [] [2] [],
   C9_is_admin_precedence.2.1 5 (some 9) ⟨true, false⟩ [] [2] [] (by decide),
   C9_is_admin_precedence.2.2.2 5 (some 9) (some ⟨false, false⟩) [1] [2, 3]
     [] (by decide)
     (by
       intro p hp
       injection hp with h
       rw [← h]
       exact ⟨rfl, rfl⟩)
     (by decide) (by decide)⟩

/-- A guild state whose cooldown blocklist covers both participants of
`sample_active_giveaway` at instant 1000000. -/
def cooldown_guild_state : GuildState :=
  { base_guild_state with
    recent_winner_cooldown_enabled := true,
    recent_winner_cooldown_days := 5,
    recent_winners := [⟨7, "g0", 999000⟩, ⟨8, "g0", 999000⟩] }

/-- Claim C10 (implicit): when finalizing with a reachable channel produces
an empty winner list, the finalization clears the participant list, so the
finished record has no participants and the overdue audit never selects it
for a re-draw, at any later instant. -/
theorem C10_empty_draw_clears_participants (gs : GuildState) (g : Giveaway)
    (notify : Bool) (sample : List Int → Nat → List Int) (now now2 : Int)
    (hw : choose_winners sample g false
      (get_recent_winner_blocklist gs now).1 = []) :
    (finalize_giveaway gs g true notify sample now).2.1.participants = [] ∧
    audit_needs_finalize
      (finalize_giveaway gs g true notify sample now).2.1 now2 = false := by
  rw [finalize_giveaway_found]
  dsimp only
  rw [hw]
  simp only [List.isEmpty_nil, Bool.not_true, Bool.false_and,
    Bool.false_eq_true, if_false]
  constructor
  · trivial
  · simp [audit_needs_finalize]

/-- Witness for C10: both participants of the concrete giveaway are inside
the cooldown window, the draw comes back empty, the finished record has no
participants and the audit predicate rejects it. -/
theorem C10_empty_draw_clears_participants_witness :
    choose_winners take_sample sample_active_giveaway false
      (get_recent_winner_blocklist cooldown_guild_state 1000000).1 = [] ∧
    ((finalize_giveaway cooldown_guild_state sample_active_giveaway true true
       take_sample 1000000).2.1.participants = [] ∧
     audit_needs_finalize (finalize_giveaway cooldown_guild_state
       sample_active_giveaway true true take_sample 1000000).2.1 2000000 =
       false) :=
  ⟨by decide,
    C10_empty_draw_clears_participants cooldown_guild_state
      sample_active_giveaway true take_sample 1000000 2000000 (by decide)⟩

/-- Looking up a key right after setting it yields the new value. -/
theorem lookup_set_schedule_run (l : List (String × Nat)) (k : String)
    (v : Nat) : (set_schedule_run l k v).lookup k = some v := by
  induction l with
  | nil => simp [set_schedule_run, List.lookup]
  | cons e t ih =>
    obtain ⟨k0, v0⟩ := e
    unfold set_schedule_run
    by_cases h : k0 = k
    · rw [if_pos h]
      simp [List.lookup]
    · rw [if_neg h]
      have h2 : (k == k0) = false := beq_eq_false_iff_ne.mpr
        (fun hh => h hh.symm)
      simp only [List.lookup, h2]
      exact ih

/-- One sweep iteration either leaves the state unchanged without firing, or
fires and stamps today into `schedule_runs`. -/
theorem maybe_start_result (sched : ScheduledGiveawayConfig) (gid : Int)
    (gs : GuildState) (step : SweepStep) :
    maybe_start_schedule sched gid gs step = (gs, false) ∨
    ∃ gs1 : GuildState, maybe_start_schedule sched gid gs step =
      ({ gs1 with schedule_runs := (set_schedule_run gs1.schedule_runs
          sched.id (step.now_local / DAY)) }, true) := by
  unfold maybe_start_schedule
  by_cases h1 : List.lookup sched.id gs.schedule_runs =
      some (step.now_local / DAY)
  · rw [if_pos h1]
    left
    rfl
  · rw [if_neg h1]
    by_cases h2 : step.now_local <
        step.now_local / DAY * DAY + sched.start_time
    · rw [if_pos h2]
      left
      rfl
    · rw [if_neg h2]
      by_cases h3 : (gs.giveaways.any
          fun g => g.scheduled_id == some sched.id && g.is_active) = true
      · rw [if_pos h3]
        left
        rfl
      · rw [if_neg h3]
        split
        · left
          rfl
        · right
          exact ⟨_, rfl⟩

/-- A sweep iteration that did not fire leaves the state unchanged. -/
theorem maybe_start_not_fired (sched : ScheduledGiveawayConfig) (gid : Int)
    (gs : GuildState) (step : SweepStep)
    (h : (maybe_start_schedule sched gid gs step).2 = false) :
    maybe_start_schedule sched gid gs step = (gs, false) := by
  rcases maybe_start_result sched gid gs step with he | ⟨gs1, he⟩
  · exact he
  · rw [he] at h
    simp at h

/-- A sweep iteration that fired records today against the schedule id. -/
theorem maybe_start_fired_records (sched : ScheduledGiveawayConfig)
    (gid : Int) (gs : GuildState) (step : SweepStep)
    (h : (maybe_start_schedule sched gid gs step).2 = true) :
    ((maybe_start_schedule sched gid gs step).1).schedule_runs.lookup
      sched.id = some (step.now_local / DAY) := by
  rcases maybe_start_result sched gid gs step with he | ⟨gs1, he⟩
  · rw [he] at h
    simp at h
  · rw [he]
    exact lookup_set_schedule_run gs1.schedule_runs sched.id _

/-- The already-fired-today marker makes the whole sweep a no-op. -/
theorem sweep_fires_zero (sched : ScheduledGiveawayConfig) (gid : Int)
    (gs : GuildState) (steps : List SweepStep) (d : Nat)
    (hlk : gs.schedule_runs.lookup sched.id = some d)
    (hd : ∀ s ∈ steps, s.now_local / DAY = d) :
    sweep_fires sched gid gs steps = (gs, 0) := by
  induction steps with
  | nil => rfl
  | cons s t ih =>
    have hs : maybe_start_schedule sched gid gs s = (gs, false) := by
      unfold maybe_start_schedule
      rw [if_pos (by rw [hd s (List.mem_cons_self s t)]; exact hlk)]
    unfold sweep_fires
    rw [hs]
    dsimp only
    rw [ih (fun x hx => hd x (List.mem_cons_of_mem s hx))]
    rfl

/-- Claim C2, core induction: over any number of sweep runs on one local
calendar day, a schedule fires at most once. -/
theorem sweep_fires_at_most_once (sched : ScheduledGiveawayConfig)
    (gid : Int) (gs : GuildState) (steps : List SweepStep) (d : Nat)
    (hd : ∀ s ∈ steps, s.now_local / DAY = d) :
    (sweep_fires sched gid gs steps).2 ≤ 1 := by
  induction steps generalizing gs with
  | nil => simp [sweep_fires]
  | cons s t ih =>
    unfold sweep_fires
    by_cases hf : (maybe_start_schedule sched gid gs s).2 = true
    · have hrec := maybe_start_fired_records sched gid gs s hf
      rw [hd s (List.mem_cons_self s t)] at hrec
      have hz : sweep_fires sched gid
          (maybe_start_schedule sched gid gs s).1 t =
          ((maybe_start_schedule sched gid gs s).1, 0) :=
        sweep_fires_zero sched gid _ t d hrec
          (fun x hx => hd x (List.mem_cons_of_mem s hx))
      dsimp only
      rw [hz, hf]
      simp
    · have hf2 : (maybe_start_schedule sched gid gs s).2 = false := by
        cases h : (maybe_start_schedule sched gid gs s).2
        · rfl
        · exact absurd h hf
      have he := maybe_start_not_fired sched gid gs s hf2
      dsimp only
      rw [he]
      dsimp only
      simp only [Bool.false_eq_true, if_false, Nat.zero_add]
      exact ih _ (fun x hx => hd x (List.mem_cons_of_mem s hx))

/-- A concrete config schedule entry: window 09:00-10:00, one winner. -/
def sweep_sched : ScheduledGiveawayConfig :=
  { id := "daily1", enabled := true, channel_id := 10, winners := 1,
    title := "t", description := "d", start_time := 32400,
    end_time := 36000 }

/-- Claim C2: per configured schedule and local calendar date, the periodic
sweep starts at most one giveaway.  The iteration skips when the recorded
last-fired day equals today, when the local time is before the start of the
window, and when an active giveaway tagged with the schedule id exists;
after firing it records today against the schedule id; and over any number
of sweep runs on one local calendar day at most one fire happens. -/
theorem C2_daily_schedule_at_most_once :
    (∀ (sched : ScheduledGiveawayConfig) (gid : Int) (gs : GuildState)
       (step : SweepStep),
      gs.schedule_runs.lookup sched.id = some (step.now_local / DAY) →
      maybe_start_schedule sched gid gs step = (gs, false)) ∧
    (∀ (sched : ScheduledGiveawayConfig) (gid : Int) (gs : GuildState)
       (step : SweepStep),
      gs.schedule_runs.lookup sched.id ≠ some (step.now_local / DAY) →
      step.now_local < step.now_local / DAY * DAY + sched.start_time →
      maybe_start_schedule sched gid gs step = (gs, false)) ∧
    (∀ (sched : ScheduledGiveawayConfig) (gid : Int) (gs : GuildState)
       (step : SweepStep),
      gs.schedule_runs.lookup sched.id ≠ some (step.now_local / DAY) →
      ¬ step.now_local < step.now_local / DAY * DAY + sched.start_time →
      (gs.giveaways.any
        fun g => g.scheduled_id == some sched.id && g.is_active) = true →
      maybe_start_schedule sched gid gs step = (gs, false)) ∧
    (∀ (sched : ScheduledGiveawayConfig) (gid : Int) (gs : GuildState)
       (step : SweepStep),
      (maybe_start_schedule sched gid gs step).2 = true →
      ((maybe_start_schedule sched gid gs step).1).schedule_runs.lookup
        sched.id = some (step.now_local / DAY)) ∧
    (∀ (sched : ScheduledGiveawayConfig) (gid : Int) (gs : GuildState)
       (steps : List SweepStep) (d : Nat),
      (∀ s ∈ steps, s.now_local / DAY = d) →
      (sweep_fires sched gid gs steps).2 ≤ 1) := by
  refine ⟨?_, ?_, ?_, maybe_start_fired_records, sweep_fires_at_most_once⟩
  · intro sched gid gs step h
    unfold maybe_start_schedule
    rw [if_pos h]
  · intro sched gid gs step h0 h1
    unfold maybe_start_schedule
    rw [if_neg h0, if_pos h1]
  · intro sched gid gs step h0 h1 h2
    unfold maybe_start_schedule
    rw [if_neg h0, if_neg h1, if_pos h2]

/-- Witness for C2: two same-day sweeps at 09:00:30 and 09:01:00 local; the
first fires (the count is exactly one), the second is blocked by the
recorded day. -/
theorem C2_daily_schedule_at_most_once_witness :
    (sweep_fires sweep_sched 1 base_guild_state
      [⟨32430, "a1", 100, true⟩, ⟨32460, "a2", 101, true⟩]).2 = 1 ∧
    (sweep_fires sweep_sched 1 base_guild_state
      [⟨32430, "a1", 100, true⟩, ⟨32460, "a2", 101, true⟩]).2 ≤ 1 :=
  ⟨by decide,
    C2_daily_schedule_at_most_once.2.2.2.2 sweep_sched 1 base_guild_state
      [⟨32430, "a1", 100, true⟩, ⟨32460, "a2", 101, true⟩] 0 (by decide)⟩

/-- Sorting an already key-sorted list leaves it unchanged. -/
theorem sort_by_key_sorted_fix {α : Type} (key : α → Int) (l : List α)
    (h : List.Chain' (fun x y => key x ≤ key y) l) :
    sort_by_key key l = l := by
  induction l with
  | nil => rfl
  | cons a t ih =>
    have e : sort_by_key key (a :: t) =
        insert_by_key key a (sort_by_key key t) := rfl
    rw [e, ih (List.Chain'.tail h)]
    cases t with
    | nil => rfl
    | cons b t2 =>
      unfold insert_by_key
      rw [if_pos (List.chain'_cons.mp h).1]

/-- A map whose function fixes every element of the list is the identity. -/
theorem list_map_self {α : Type} (l : List α) (f : α → α)
    (h : ∀ x ∈ l, f x = x) : l.map f = l := by
  induction l with
  | nil => rfl
  | cons a t ih =>
    simp only [List.map_cons]
    rw [h a (List.mem_cons_self a t),
      ih (fun x hx => h x (List.mem_cons_of_mem a hx))]

/-- A giveaway survives the row round trip when its guild id matches the
database file. -/
theorem giveaway_row_round_trip (g : Giveaway) (gid : Int)
    (h : g.guild_id = gid) :
    giveaway_of_row (giveaway_to_row g) gid = g := by
  cases g
  subst h
  rfl

/-- A pending giveaway survives the row round trip when its guild id matches
the database file. -/
theorem pending_row_round_trip (p : PendingGiveaway) (gid : Int)
    (h : p.guild_id = gid) :
    pending_of_row (pending_to_row p) gid = p := by
  cases p
  subst h
  rfl

/-- A recurring schedule survives the row round trip when its guild id
matches and its times-of-day are whole minutes (the `"%H:%M"` encoding drops
seconds and microseconds). -/
theorem recurring_row_round_trip (r : RecurringGiveaway) (gid : Int)
    (h : r.guild_id = gid)
    (hs : r.start_time.second = 0) (hsu : r.start_time.microsecond = 0)
    (he : r.end_time.second = 0) (heu : r.end_time.microsecond = 0) :
    recurring_of_row (recurring_to_row r) gid = r := by
  obtain ⟨i, g, c, w, ti, de, st, et, ns, nend, en⟩ := r
  obtain ⟨sh, sm, ss, su⟩ := st
  obtain ⟨eh, em, es, eu⟩ := et
  dsimp only at h hs hsu he heu
  subst h
  subst hs
  subst hsu
  subst he
  subst heu
  rfl

/-- Claim C8 (amended): serializing a guild state through the per-guild
SQLite layer and reading it back is lossless exactly under the conditions
the schema imposes: every entity carries the guild id of its database file,
the recurring times-of-day are whole minutes (the `"%H:%M"` column format),
the admin-role list is strictly ascending (it is read back in
INTEGER-PRIMARY-KEY order), the recent-winner ledger is already in
non-decreasing `won_at` order (it is read back `ORDER BY won_at`), and all
primary keys are duplicate-free (a duplicate makes the whole transaction
fail instead). -/
theorem C8_round_trip_amended (gs : GuildState) (gid : Int)
    (hg : ∀ g ∈ gs.giveaways, g.guild_id = gid)
    (hp : ∀ p ∈ gs.pending_giveaways, p.guild_id = gid)
    (hr : ∀ r ∈ gs.recurring_giveaways, r.guild_id = gid)
    (hrt : ∀ r ∈ gs.recurring_giveaways,
      r.start_time.second = 0 ∧ r.start_time.microsecond = 0 ∧
      r.end_time.second = 0 ∧ r.end_time.microsecond = 0)
    (hadmin : List.Pairwise (fun a b => a < b) gs.admin_roles)
    (hwin : List.Chain' (fun a b => a.won_at ≤ b.won_at) gs.recent_winners)
    (hids : (gs.giveaways.map (fun g => g.id)).Nodup)
    (hpids : (gs.pending_giveaways.map (fun p => p.id)).Nodup)
    (hrids : (gs.recurring_giveaways.map (fun r => r.id)).Nodup)
    (hkeys : (gs.schedule_runs.map (fun e => e.1)).Nodup) :
    (write_guild_db gs).map (fun db => read_guild_db db gid) =
      Except.ok gs := by
  have hadmin_nd : gs.admin_roles.Nodup := hadmin.imp (fun h => ne_of_lt h)
  have hw : write_guild_db gs =
      .ok { auto_enabled := gs.auto_enabled, timezone := gs.timezone,
            logger_channel_id := gs.logger_channel_id,
            recent_winner_cooldown_enabled :=
              gs.recent_winner_cooldown_enabled,
            recent_winner_cooldown_days := gs.recent_winner_cooldown_days,
            schedule_runs := gs.schedule_runs,
            admin_roles := gs.admin_roles,
            giveaways := gs.giveaways.map giveaway_to_row,
            pending_giveaways := gs.pending_giveaways.map pending_to_row,
            recurring_giveaways :=
              gs.recurring_giveaways.map recurring_to_row,
            recent_winners := gs.recent_winners } := by
    unfold write_guild_db
    rw [if_neg (not_not_intro hkeys), if_neg (not_not_intro hadmin_nd),
      if_neg (not_not_intro hids), if_neg (not_not_intro hpids),
      if_neg (not_not_intro hrids)]
  rw [hw]
  show Except.ok (read_guild_db
    { auto_enabled := gs.auto_enabled, timezone := gs.timezone,
      logger_channel_id := gs.logger_channel_id,
      recent_winner_cooldown_enabled := gs.recent_winner_cooldown_enabled,
      recent_winner_cooldown_days := gs.recent_winner_cooldown_days,
      schedule_runs := gs.schedule_runs,
      admin_roles := gs.admin_roles,
      giveaways := gs.giveaways.map giveaway_to_row,
      pending_giveaways := gs.pending_giveaways.map pending_to_row,
      recurring_giveaways := gs.recurring_giveaways.map recurring_to_row,
      recent_winners := gs.recent_winners } gid) = Except.ok gs
  unfold read_guild_db
  obtain ⟨auto, tz, log, runs, gws, pend, recs, roles, ce, cd, rws⟩ := gs
  simp only [Except.ok.injEq, GuildState.mk.injEq]
  refine ⟨trivial, trivial, trivial, trivial, ?_, ?_, ?_, ?_, trivial, trivial, ?_⟩
  · rw [List.map_map]
    exact list_map_self gws _ (fun x hx => giveaway_row_round_trip x gid
      (hg x hx))
  · rw [List.map_map]
    exact list_map_self pend _ (fun x hx => pending_row_round_trip x gid
      (hp x hx))
  · rw [List.map_map]
    refine list_map_self recs _ (fun x hx => ?_)
    obtain ⟨h1, h2, h3, h4⟩ := hrt x hx
    exact recurring_row_round_trip x gid (hr x hx) h1 h2 h3 h4
  · exact sort_by_key_sorted_fix _ roles
      ((hadmin.imp (fun h => le_of_lt h)).chain')
  · exact sort_by_key_sorted_fix _ rws hwin

/-- A guild state with one entity of each kind whose recurring window starts
at 09:00:30 — the seconds are lost by the `"%H:%M"` column format. -/
def storage_cex_guild_state : GuildState :=
  { auto_enabled := true, timezone := "Europe/Berlin",
    logger_channel_id := some 5,
    schedule_runs := [("daily1", 100)],
    giveaways :=
      [{ id := "g1", guild_id := 1, channel_id := 10, message_id := 100,
         winners := 1, title := "t", description := "d", end_time := 50,
         created_at := 0, participants := [7], scheduled_id := none,
         is_active := false, last_announced_winners := [7] }],
    pending_giveaways :=
      [{ id := "p1", guild_id := 1, channel_id := 10, winners := 1,
         title := "t", description := "d", start_time := 10,
         end_time := 20 }],
    recurring_giveaways :=
      [{ id := "r1", guild_id := 1, channel_id := 10, winners := 1,
         title := "t", description := "d", start_time := ⟨9, 0, 30, 0⟩,
         end_time := ⟨10, 0, 0, 0⟩, next_start := 100, next_end := 200,
         enabled := true }],
    admin_roles := [3],
    recent_winner_cooldown_enabled := false,
    recent_winner_cooldown_days := 0,
    recent_winners := [⟨7, "g1", 40⟩] }

/-- The same state with the seconds removed from the recurring window, so
the round trip is lossless. -/
def storage_ok_guild_state : GuildState :=
  { storage_cex_guild_state with
    recurring_giveaways :=
      [{ id := "r1", guild_id := 1, channel_id := 10, winners := 1,
         title := "t", description := "d", start_time := ⟨9, 0, 0, 0⟩,
         end_time := ⟨10, 0, 0, 0⟩, next_start := 100, next_end := 200,
         enabled := true }] }

/-- Counterexample to claim C8 as stated: a guild state with one entity of
each kind whose recurring start time carries seconds (09:00:30) does not
survive the save/load round trip field-for-field — the stored `"%H:%M"`
value truncates the time-of-day to 09:00. -/
theorem C8_round_trip_counterexample :
    ((write_guild_db storage_cex_guild_state).map
      (fun db => read_guild_db db 1)).toOption ≠
      some storage_cex_guild_state := by
  decide

/-- Witness for the amended C8: the concrete guild state with one entity of
each kind, whole-minute recurring times, ascending admin roles and sorted
recent winners round-trips to itself. -/
theorem C8_round_trip_amended_witness :
    ((∀ g ∈ storage_ok_guild_state.giveaways, g.guild_id = 1) ∧
     (∀ p ∈ storage_ok_guild_state.pending_giveaways, p.guild_id = 1) ∧
     (∀ r ∈ storage_ok_guild_state.recurring_giveaways, r.guild_id = 1) ∧
     (∀ r ∈ storage_ok_guild_state.recurring_giveaways,
       r.start_time.second = 0 ∧ r.start_time.microsecond = 0 ∧
       r.end_time.second = 0 ∧ r.end_time.microsecond = 0) ∧
     List.Pairwise (fun a b => a < b) storage_ok_guild_state.admin_roles ∧
     List.Chain' (fun a b => a.won_at ≤ b.won_at)
       storage_ok_guild_state.recent_winners) ∧
    (write_guild_db storage_ok_guild_state).map
      (fun db => read_guild_db db 1) = Except.ok storage_ok_guild_state :=
  ⟨⟨by decide, by decide, by decide, by decide, by decide,
     by simp [storage_ok_guild_state, storage_cex_guild_state]⟩,
    C8_round_trip_amended storage_ok_guild_state 1 (by decide) (by decide)
      (by decide) (by decide) (by decide)
      (by simp [storage_ok_guild_state, storage_cex_guild_state])
      (by decide)
      (by decide) (by decide) (by decide)⟩
